import Mathlib

/-!
Verification of the V2X coordination core (dashboard `app.py` and simulator
`v2x_simulator.py`) against its natural-language specification.

The Python code is shallowly embedded: the coordinator state
(`Car2XDashboard.__init__`) becomes the structure `DashState`; Python dicts
become insertion-ordered association lists with `dictGet` and `upsert`;
`str.split` on a single slash becomes `pySplit`; JSON payloads become the
inductive `Json`; the MQTT message callback `on_mqtt_message` becomes a pure
state-transition function that also returns the list of socket events it
emits; exceptions caught by its enclosing try/except (IndexError on a short
topic, a JSON decode failure modelled as a `none` payload) are modelled by
returning the state unchanged with no emissions, exactly the observable
effect of the handler's except branch.
-/

namespace Car2X

/-- JSON values, the payloads carried by MQTT messages. The handler never
inspects payload contents, but claims about keying need concrete objects. -/
inductive Json where
  | null : Json
  | bool : Bool → Json
  | num : Int → Json
  | str : String → Json
  | arr : List Json → Json
  | obj : List (String × Json) → Json

/-- Lookup in an insertion-ordered association list, the embedding of a
Python dict read (`d[k]` / `k in d`). -/
def dictGet {α : Type} (m : List (String × α)) (k : String) : Option α :=
  match m with
  | [] => none
  | (k', v) :: rest => if k' = k then some v else dictGet rest k

/-- Python dict assignment `d[k] = v`: replace in place when the key exists
(keeping its insertion position), otherwise append at the end. -/
def upsert {α : Type} (m : List (String × α)) (k : String) (v : α) :
    List (String × α) :=
  match m with
  | [] => [(k, v)]
  | (k', v') :: rest =>
      if k' = k then (k, v) :: rest else (k', v') :: upsert rest k v

/-- A job record, the dict built in `Car2XDashboard.create_job`
(app.py:114-121). The `responses` key is absent at creation and first
materialised by the response handler, hence `Option`. -/
structure Job where
  job_id : String
  type : String
  timestamp : String
  target_vehicles : List String
  parameters : List (String × Json)
  status : String
  responses : Option (List Json)

/-- Serialisation of a job record as published on the bus
(`json.dumps(job)` in app.py:126). -/
def jobJson (j : Job) : Json :=
  .obj ([("job_id", .str j.job_id), ("type", .str j.type),
    ("timestamp", .str j.timestamp),
    ("target_vehicles", .arr (j.target_vehicles.map .str)),
    ("parameters", .obj j.parameters), ("status", .str j.status)] ++
    (match j.responses with
     | none => []
     | some rs => [("responses", .arr rs)]))

/-- The coordinator's mutable state: the four containers created in
`Car2XDashboard.__init__` (app.py:35-38). -/
structure DashState where
  vehicles : List (String × Json)
  infrastructure : List (String × Json)
  emergencies : List Json
  jobs : List (String × Job)

/-- The freshly constructed dashboard: all containers empty. -/
def initState : DashState := ⟨[], [], [], []⟩

/-- Accumulator-based splitter over the character list; models Python's
`str.split` with a single-character separator (keeps empty fields,
returns one empty field for the empty string). -/
def splitSlashAux (acc : List Char) : List Char → List (List Char)
  | [] => [acc.reverse]
  | c :: cs =>
      if c = '/' then acc.reverse :: splitSlashAux [] cs
      else splitSlashAux (c :: acc) cs

/-- The embedding of `topic.split('/')` from app.py:57. -/
def pySplit (s : String) : List String :=
  (splitSlashAux [] s.data).map String.mk

theorem mk_data (s : String) : String.mk s.data = s := by
  cases s
  rfl

theorem splitSlashAux_concat (l r : List Char) (acc : List Char)
    (h : '/' ∉ l) :
    splitSlashAux acc (l ++ '/' :: r) =
      (acc.reverse ++ l) :: splitSlashAux [] r := by
  induction l generalizing acc with
  | nil => simp [splitSlashAux]
  | cons c cs ih =>
      have hc : ¬ (c = '/') := fun e => h (e ▸ List.mem_cons_self c cs)
      have hcs : '/' ∉ cs := fun e => h (List.mem_cons_of_mem c e)
      simp only [List.cons_append, splitSlashAux, if_neg hc, List.append_eq]
      rw [ih (c :: acc) hcs]
      simp

theorem splitSlashAux_noSlash (l : List Char) (acc : List Char)
    (h : '/' ∉ l) :
    splitSlashAux acc l = [acc.reverse ++ l] := by
  induction l generalizing acc with
  | nil => simp [splitSlashAux]
  | cons c cs ih =>
      have hc : ¬ (c = '/') := fun e => h (e ▸ List.mem_cons_self c cs)
      have hcs : '/' ∉ cs := fun e => h (List.mem_cons_of_mem c e)
      simp only [splitSlashAux, if_neg hc]
      rw [ih (c :: acc) hcs]
      simp

/-- The job-response branch of `Car2XDashboard.on_mqtt_message`
(app.py:85-94), the registry operation the spec calls RecordResponse: a
response for an unknown job id does nothing (the membership test fails);
for a known job the response is appended to its response list, which is
created on first use, and a socket event is emitted. -/
def recordResponse (st : DashState) (job_id : String) (message : Json) :
    DashState × List (String × Json) :=
  match dictGet st.jobs job_id with
  | none => (st, [])
  | some job =>
      let job' : Job :=
        { job with responses := some (job.responses.getD [] ++ [message]) }
      ({ st with jobs := upsert st.jobs job_id job' },
       [("job_response",
         .obj [("job_id", .str job_id), ("response", message)])])

/-- The MQTT callback `Car2XDashboard.on_mqtt_message` (app.py:55-97) as a
pure transition: input is the topic and the decoded payload (`none` when
`json.loads` raised); output is the new state and the emitted socket
events. A missing topic segment raises IndexError in the source, which the
enclosing try/except absorbs before any store was touched, so those paths
return the state unchanged. -/
def on_mqtt_message (st : DashState) (topic : String)
    (payload : Option Json) : DashState × List (String × Json) :=
  match payload with
  | none => (st, [])
  | some message =>
    match (pySplit topic).get? 1 with
    | none => (st, [])
    | some p1 =>
      if p1 = "vehicles" then
        match (pySplit topic).get? 3 with
        | none => (st, [])
        | some p3 =>
          if p3 = "status" then
            match (pySplit topic).get? 2 with
            | none => (st, [])
            | some vehicle_id =>
                ({ st with
                    vehicles := upsert st.vehicles vehicle_id message },
                 [("vehicle_update", message)])
          else if p3 = "emergency" then
            match (pySplit topic).get? 2 with
            | none => (st, [])
            | some vehicle_id =>
                (st, [("vehicle_emergency",
                  .obj [("vehicle_id", .str vehicle_id),
                        ("message", message)])])
          else (st, [])
      else if p1 = "infrastructure" then
        match (pySplit topic).get? 2 with
        | none => (st, [])
        | some infra_id =>
            ({ st with
                infrastructure := upsert st.infrastructure infra_id message },
             [("infrastructure_update", message)])
      else if p1 = "emergency" then
        ({ st with emergencies := st.emergencies ++ [message] },
         [("emergency_alert", message)])
      else if p1 = "jobs" then
        match (pySplit topic).get? 2 with
        | none => (st, [])
        | some job_id => recordResponse st job_id message
      else (st, [])

/-- Python string slicing `s[:n]`: the first n characters (code points)
of the string. -/
def pyTake (s : String) (n : Nat) : String :=
  ⟨s.data.take n⟩

/-- `Car2XDashboard.create_job` (app.py:109-128): the job id is the first
eight characters of a freshly drawn UUID4 string (passed in here to make
the randomness explicit), the record is stored with status pending, and
one assignment message is published on the bus. Returns the new state, the
published (topic, payload) list and the returned job id. -/
def create_job (st : DashState) (uuid4 : String) (now : String)
    (job_type : String) (target_vehicles : List String)
    (parameters : Option (List (String × Json))) :
    DashState × List (String × Json) × String :=
  let job_id := pyTake uuid4 8
  let job : Job :=
    { job_id := job_id, type := job_type, timestamp := now,
      target_vehicles := target_vehicles,
      parameters := parameters.getD [], status := "pending",
      responses := none }
  ({ st with jobs := upsert st.jobs job_id job },
   [("v2x/jobs/" ++ job_id ++ "/assign", jobJson job)], job_id)

/-- The `/api/emergencies` view (app.py:148-151): Python's
`emergencies[-10:]`, the last ten events, most-recent-last. -/
def getEmergencies (st : DashState) : List Json :=
  st.emergencies.drop (st.emergencies.length - 10)

/-- The `/api/jobs` view (app.py:153-156): all job records, in insertion
order. -/
def listJobs (st : DashState) : List Job := st.jobs.map Prod.snd

/-- MQTT topic-filter matching, level by level: the single-level wildcard
plus matches any one level. This is the transport behaviour the adapter
relies on for the filters it subscribes in `on_mqtt_connect`. -/
def levelMatch : List String → List String → Bool
  | [], [] => true
  | f :: fs, t :: ts => (f == "+" || f == t) && levelMatch fs ts
  | _, _ => false

/-- Whether a concrete topic matches one subscription filter. -/
def filterMatch (filt topic : String) : Bool :=
  levelMatch (pySplit filt) (pySplit topic)

/-- The five filters subscribed by `Car2XDashboard.on_mqtt_connect`
(app.py:49-53). -/
def dashSubs : List String :=
  ["v2x/vehicles/+/status", "v2x/vehicles/+/emergency",
   "v2x/infrastructure/+", "v2x/emergency/broadcast",
   "v2x/jobs/+/response"]

/-- Whether the dashboard receives a message published on this topic. -/
def subscribedDash (topic : String) : Bool :=
  dashSubs.any (fun f => filterMatch f topic)

/-- One inbound publish as seen by the dashboard adapter: the transport
delivers the message to `on_mqtt_message` only when the topic matches a
subscribed filter, otherwise the dashboard never sees it. -/
def dashboardDeliver (st : DashState) (topic : String)
    (payload : Option Json) : DashState × List (String × Json) :=
  if subscribedDash topic then on_mqtt_message st topic payload
  else (st, [])

/-- A structured topic address: one constructor per recognized message
kind, carrying the entity or job identifier where the kind has one. -/
inductive TopicAddr where
  | vehicleStatus : String → TopicAddr
  | vehicleEmergency : String → TopicAddr
  | infrastructureUpdate : String → TopicAddr
  | emergencyBroadcast : TopicAddr
  | jobAssignment : String → TopicAddr
  | jobResponse : String → TopicAddr
deriving DecidableEq

/-- The identifier carried by an address (empty for the broadcast kind,
which has none). -/
def addrId : TopicAddr → String
  | .vehicleStatus id => id
  | .vehicleEmergency id => id
  | .infrastructureUpdate id => id
  | .emergencyBroadcast => ""
  | .jobAssignment id => id
  | .jobResponse id => id

/-- Topic formatting, exactly the strings built at the publish sites:
v2x_simulator.py:212 (vehicle status), the vehicle-emergency pattern of
the subscription set, v2x_simulator.py:157 (infrastructure),
v2x_simulator.py:197 (emergency broadcast), app.py:126 and
v2x_simulator.py:231 (job assignment), v2x_simulator.py:255 (job
response). -/
def formatTopic : TopicAddr → String
  | .vehicleStatus id => "v2x/vehicles/" ++ id ++ "/status"
  | .vehicleEmergency id => "v2x/vehicles/" ++ id ++ "/emergency"
  | .infrastructureUpdate id => "v2x/infrastructure/" ++ id
  | .emergencyBroadcast => "v2x/emergency/broadcast"
  | .jobAssignment id => "v2x/jobs/" ++ id ++ "/assign"
  | .jobResponse id => "v2x/jobs/" ++ id ++ "/response"

/-- Topic classification as the running system performs it: the
subscription filters (app.py:49-53, v2x_simulator.py:33-36) restrict the
shape, and the receiving handlers' segment tests
(app.py:60-85, v2x_simulator.py:43-57) select the kind; the identifier is
the third segment. Combined, a topic is classified exactly when it has
one of these six shapes. -/
def parseSegs : List String → Option TopicAddr
  | ["v2x", "vehicles", id, "status"] => some (.vehicleStatus id)
  | ["v2x", "vehicles", id, "emergency"] => some (.vehicleEmergency id)
  | ["v2x", "infrastructure", id] => some (.infrastructureUpdate id)
  | ["v2x", "emergency", "broadcast"] => some .emergencyBroadcast
  | ["v2x", "jobs", id, "assign"] => some (.jobAssignment id)
  | ["v2x", "jobs", id, "response"] => some (.jobResponse id)
  | _ => none

/-- Parse a topic string: split on the slash and classify the segments. -/
def parseTopic (t : String) : Option TopicAddr :=
  parseSegs (pySplit t)

/-- Fold a batch of inbound messages through the handler, discarding the
emitted socket events. -/
def runMsgs (st : DashState) (msgs : List (String × Option Json)) :
    DashState :=
  msgs.foldl (fun s m => (on_mqtt_message s m.1 m.2).1) st

/-- Fold a sequence of store writes (entity id, snapshot) through the
dict-assignment of the status branch (app.py:63). -/
def applyUpserts {α : Type} (m : List (String × α))
    (ops : List (String × α)) : List (String × α) :=
  ops.foldl (fun d p => upsert d p.1 p.2) m

theorem pySplit_vehicleStatus (id : String) (h : '/' ∉ id.data) :
    pySplit ("v2x/vehicles/" ++ id ++ "/status") =
      ["v2x", "vehicles", id, "status"] := by
  unfold pySplit
  rw [show ("v2x/vehicles/" ++ id ++ "/status").data =
      "v2x".data ++ '/' ::
        ("vehicles".data ++ '/' :: (id.data ++ '/' :: "status".data))
    from rfl]
  rw [splitSlashAux_concat _ _ _ (by decide),
      splitSlashAux_concat _ _ _ (by decide),
      splitSlashAux_concat _ _ _ h,
      splitSlashAux_noSlash _ _ (by decide)]
  simp [mk_data]

theorem pySplit_vehicleEmergency (id : String) (h : '/' ∉ id.data) :
    pySplit ("v2x/vehicles/" ++ id ++ "/emergency") =
      ["v2x", "vehicles", id, "emergency"] := by
  unfold pySplit
  rw [show ("v2x/vehicles/" ++ id ++ "/emergency").data =
      "v2x".data ++ '/' ::
        ("vehicles".data ++ '/' :: (id.data ++ '/' :: "emergency".data))
    from rfl]
  rw [splitSlashAux_concat _ _ _ (by decide),
      splitSlashAux_concat _ _ _ (by decide),
      splitSlashAux_concat _ _ _ h,
      splitSlashAux_noSlash _ _ (by decide)]
  simp [mk_data]

theorem pySplit_infrastructure (id : String) (h : '/' ∉ id.data) :
    pySplit ("v2x/infrastructure/" ++ id) =
      ["v2x", "infrastructure", id] := by
  unfold pySplit
  rw [show ("v2x/infrastructure/" ++ id).data =
      "v2x".data ++ '/' :: ("infrastructure".data ++ '/' :: id.data)
    from rfl]
  rw [splitSlashAux_concat _ _ _ (by decide),
      splitSlashAux_concat _ _ _ (by decide),
      splitSlashAux_noSlash _ _ h]
  simp [mk_data]

theorem pySplit_jobAssign (id : String) (h : '/' ∉ id.data) :
    pySplit ("v2x/jobs/" ++ id ++ "/assign") =
      ["v2x", "jobs", id, "assign"] := by
  unfold pySplit
  rw [show ("v2x/jobs/" ++ id ++ "/assign").data =
      "v2x".data ++ '/' ::
        ("jobs".data ++ '/' :: (id.data ++ '/' :: "assign".data))
    from rfl]
  rw [splitSlashAux_concat _ _ _ (by decide),
      splitSlashAux_concat _ _ _ (by decide),
      splitSlashAux_concat _ _ _ h,
      splitSlashAux_noSlash _ _ (by decide)]
  simp [mk_data]

theorem dictGet_upsert_self {α : Type} (m : List (String × α))
    (k : String) (v : α) : dictGet (upsert m k v) k = some v := by
  induction m with
  | nil => simp [upsert, dictGet]
  | cons p rest ih =>
      obtain ⟨k', v'⟩ := p
      by_cases h : k' = k
      · simp [upsert, dictGet, h]
      · simp [upsert, dictGet, h, ih]

theorem dictGet_upsert_ne {α : Type} (m : List (String × α))
    (k k' : String) (v : α) (h : k' ≠ k) :
    dictGet (upsert m k' v) k = dictGet m k := by
  induction m with
  | nil => simp [upsert, dictGet, h]
  | cons p rest ih =>
      obtain ⟨k0, v0⟩ := p
      by_cases h0 : k0 = k'
      · subst h0
        simp [upsert, dictGet, h]
      · simp only [upsert, if_neg h0, dictGet]
        by_cases h1 : k0 = k
        · simp [h1]
        · simp [h1, ih]

theorem applyUpserts_cons {α : Type} (m : List (String × α))
    (q : String × α) (ops : List (String × α)) :
    applyUpserts m (q :: ops) = applyUpserts (upsert m q.1 q.2) ops := rfl

theorem applyUpserts_append {α : Type} (m xs ys : List (String × α)) :
    applyUpserts m (xs ++ ys) = applyUpserts (applyUpserts m xs) ys := by
  simp [applyUpserts, List.foldl_append]

theorem dictGet_applyUpserts_of_ne {α : Type} (m : List (String × α))
    (ops : List (String × α)) (k : String)
    (h : ∀ q ∈ ops, q.1 ≠ k) :
    dictGet (applyUpserts m ops) k = dictGet m k := by
  induction ops generalizing m with
  | nil => rfl
  | cons q rest ih =>
      rw [applyUpserts_cons]
      rw [ih (upsert m q.1 q.2) (fun p hp => h p (List.mem_cons_of_mem q hp))]
      exact dictGet_upsert_ne m k q.1 q.2 (h q (List.mem_cons_self q rest))

theorem pySplit_jobResponse (id : String) (h : '/' ∉ id.data) :
    pySplit ("v2x/jobs/" ++ id ++ "/response") =
      ["v2x", "jobs", id, "response"] := by
  unfold pySplit
  rw [show ("v2x/jobs/" ++ id ++ "/response").data =
      "v2x".data ++ '/' ::
        ("jobs".data ++ '/' :: (id.data ++ '/' :: "response".data))
    from rfl]
  rw [splitSlashAux_concat _ _ _ (by decide),
      splitSlashAux_concat _ _ _ (by decide),
      splitSlashAux_concat _ _ _ h,
      splitSlashAux_noSlash _ _ (by decide)]
  simp [mk_data]

theorem status_step (st : DashState) (id : String) (m : Json)
    (h : '/' ∉ id.data) :
    on_mqtt_message st ("v2x/vehicles/" ++ id ++ "/status") (some m) =
      ({ st with vehicles := upsert st.vehicles id m },
       [("vehicle_update", m)]) := by
  unfold on_mqtt_message
  rw [pySplit_vehicleStatus id h]
  rfl

theorem vehicleEmergency_step (st : DashState) (id : String) (m : Json)
    (h : '/' ∉ id.data) :
    on_mqtt_message st ("v2x/vehicles/" ++ id ++ "/emergency") (some m) =
      (st, [("vehicle_emergency",
        .obj [("vehicle_id", .str id), ("message", m)])]) := by
  unfold on_mqtt_message
  rw [pySplit_vehicleEmergency id h]
  rfl

theorem infrastructure_step (st : DashState) (id : String) (m : Json)
    (h : '/' ∉ id.data) :
    on_mqtt_message st ("v2x/infrastructure/" ++ id) (some m) =
      ({ st with infrastructure := upsert st.infrastructure id m },
       [("infrastructure_update", m)]) := by
  unfold on_mqtt_message
  rw [pySplit_infrastructure id h]
  rfl

theorem broadcast_step (st : DashState) (m : Json) :
    on_mqtt_message st "v2x/emergency/broadcast" (some m) =
      ({ st with emergencies := st.emergencies ++ [m] },
       [("emergency_alert", m)]) := rfl

theorem jobResponse_step (st : DashState) (id : String) (m : Json)
    (h : '/' ∉ id.data) :
    on_mqtt_message st ("v2x/jobs/" ++ id ++ "/response") (some m) =
      recordResponse st id m := by
  unfold on_mqtt_message
  rw [pySplit_jobResponse id h]
  rfl

/-- A batch of emergency-broadcast deliveries, one per event. -/
def broadcasts (evs : List Json) : List (String × Option Json) :=
  evs.map (fun e => ("v2x/emergency/broadcast", some e))

theorem runMsgs_broadcasts (st : DashState) (evs : List Json) :
    runMsgs st (broadcasts evs) =
      { st with emergencies := st.emergencies ++ evs } := by
  induction evs generalizing st with
  | nil => simp [runMsgs, broadcasts]
  | cons e es ih =>
      show runMsgs st (("v2x/emergency/broadcast", some e) :: broadcasts es)
        = _
      rw [show runMsgs st (("v2x/emergency/broadcast", some e) ::
            broadcasts es) =
          runMsgs (on_mqtt_message st "v2x/emergency/broadcast" (some e)).1
            (broadcasts es) from rfl]
      rw [broadcast_step, ih]
      simp

theorem subscribed_parse_isSome (t : String)
    (h : subscribedDash t = true) : (parseTopic t).isSome = true := by
  unfold subscribedDash dashSubs filterMatch at h
  simp only [List.any_cons, List.any_nil, Bool.or_eq_true,
    Bool.or_false] at h
  rw [show pySplit "v2x/vehicles/+/status" =
        ["v2x", "vehicles", "+", "status"] from rfl,
      show pySplit "v2x/vehicles/+/emergency" =
        ["v2x", "vehicles", "+", "emergency"] from rfl,
      show pySplit "v2x/infrastructure/+" =
        ["v2x", "infrastructure", "+"] from rfl,
      show pySplit "v2x/emergency/broadcast" =
        ["v2x", "emergency", "broadcast"] from rfl,
      show pySplit "v2x/jobs/+/response" =
        ["v2x", "jobs", "+", "response"] from rfl] at h
  unfold parseTopic
  generalize hg : pySplit t = ts
  rw [hg] at h
  rcases ts with _ | ⟨a, _ | ⟨b, _ | ⟨c, _ | ⟨d, _ | ⟨e, rest⟩⟩⟩⟩⟩ <;>
    simp [levelMatch] at h
  · rcases h with ⟨rfl, rfl⟩ | ⟨rfl, rfl, rfl⟩ <;> rfl
  · rcases h with ⟨rfl, rfl, rfl⟩ | ⟨rfl, rfl, rfl⟩ | ⟨rfl, rfl, rfl⟩ <;>
      rfl

/-- A sample job record used for concrete instantiations. -/
def sampleJob : Job :=
  { job_id := "j1", type := "diagnostic", timestamp := "t0",
    target_vehicles := ["V001"], parameters := [], status := "pending",
    responses := none }

/-- C1: last-write-wins for the entity state store. For any prior store
history, upserting snapshot s1 then s2 for the same id, with arbitrary
interleaved upserts on other ids between and after, leaves Get(id) = s2;
and an inbound status message for id is exactly such an upsert on the
vehicles store (app.py:60-64). -/
theorem C1_last_write_wins (init pre mid post : List (String × Json))
    (id : String) (s1 s2 : Json) (st : DashState) (m : Json)
    (hid : '/' ∉ id.data)
    (_hmid : ∀ q ∈ mid, q.1 ≠ id) (hpost : ∀ q ∈ post, q.1 ≠ id) :
    dictGet (applyUpserts init
        (pre ++ (id, s1) :: (mid ++ (id, s2) :: post))) id = some s2 ∧
    on_mqtt_message st ("v2x/vehicles/" ++ id ++ "/status") (some m) =
      ({ st with vehicles := upsert st.vehicles id m },
       [("vehicle_update", m)]) := by
  constructor
  · rw [applyUpserts_append, applyUpserts_cons, applyUpserts_append,
        applyUpserts_cons, dictGet_applyUpserts_of_ne _ post id hpost]
    exact dictGet_upsert_self _ _ _
  · exact status_step st id m hid

/-- Witness for C1 at a concrete input. -/
theorem C1_witness :
    ('/' ∉ "A".data) ∧
    (∀ q ∈ [("B", Json.num 1)], Prod.fst q ≠ "A") ∧
    (∀ q ∈ [("B", Json.num 2)], Prod.fst q ≠ "A") ∧
    dictGet (applyUpserts []
        ([("C", Json.num 0)] ++ ("A", Json.num 3) ::
          ([("B", Json.num 1)] ++ ("A", Json.num 4) ::
            [("B", Json.num 2)]))) "A" = some (Json.num 4) :=
  ⟨by decide, by decide, by decide,
   (C1_last_write_wins [] [("C", Json.num 0)] [("B", Json.num 1)]
      [("B", Json.num 2)] "A" (Json.num 3) (Json.num 4) initState
      Json.null (by decide) (by decide) (by decide)).1⟩

/-- C2 as stated is false on the code: neither app.py:85-94 nor
v2x_simulator.py:261-266 ever writes the status field, so after
Create(diagnostic, [V001, V002]) and two recorded responses the single
listed job still has status pending, not active (its two responses are
appended in call order). -/
theorem C2_counterexample :
    (listJobs (recordResponse (recordResponse
        (create_job initState "abcd1234-e5f6-7890" "t0" "diagnostic"
          ["V001", "V002"] none).1 "abcd1234" (Json.str "respV001")).1
        "abcd1234" (Json.str "respV002")).1).map Job.status =
      ["pending"] ∧
    (listJobs (recordResponse (recordResponse
        (create_job initState "abcd1234-e5f6-7890" "t0" "diagnostic"
          ["V001", "V002"] none).1 "abcd1234" (Json.str "respV001")).1
        "abcd1234" (Json.str "respV002")).1).map Job.responses =
      [some [Json.str "respV001", Json.str "respV002"]] ∧
    "pending" ≠ "active" :=
  ⟨rfl, rfl, by decide⟩

/-- C2 amended: recording a response for a known job appends the response
to the job's response list and leaves every other field, including
status, unchanged; the Create-then-two-responses scenario yields exactly
one job, still pending, with the two responses in call order. -/
theorem C2_record_response_appends (st : DashState) (jid : String)
    (r : Json) (job : Job) (hj : dictGet st.jobs jid = some job)
    (uuid4 now : String) (r1 r2 : Json) :
    recordResponse st jid r =
      ({ st with jobs := upsert st.jobs jid ({ job with responses := some (job.responses.getD [] ++ [r]) }) },
       [("job_response",
         Json.obj [("job_id", Json.str jid), ("response", r)])]) ∧
    listJobs (recordResponse (recordResponse
        (create_job initState uuid4 now "diagnostic" ["V001", "V002"]
          none).1 (pyTake uuid4 8) r1).1 (pyTake uuid4 8) r2).1 =
      [{ job_id := pyTake uuid4 8, type := "diagnostic", timestamp := now,
         target_vehicles := ["V001", "V002"], parameters := [],
         status := "pending", responses := some [r1, r2] }] := by
  constructor
  · unfold recordResponse
    rw [hj]
  · rw [show (create_job initState uuid4 now "diagnostic"
        ["V001", "V002"] none).1 =
      { initState with jobs := [(pyTake uuid4 8,
          { job_id := pyTake uuid4 8, type := "diagnostic",
            timestamp := now, target_vehicles := ["V001", "V002"],
            parameters := [], status := "pending",
            responses := none })] } from rfl]
    generalize pyTake uuid4 8 = jid
    simp [recordResponse, dictGet, upsert, listJobs, Option.getD]

/-- Witness for the amended C2 at a concrete input. -/
theorem C2_witness :
    dictGet ({ initState with jobs := [("j1", sampleJob)] }
        : DashState).jobs "j1" = some sampleJob ∧
    recordResponse { initState with jobs := [("j1", sampleJob)] } "j1"
        (Json.str "ack") =
      ({ initState with jobs := [("j1",
          { sampleJob with responses := some [Json.str "ack"] })] },
       [("job_response",
         Json.obj [("job_id", Json.str "j1"),
                   ("response", Json.str "ack")])]) :=
  ⟨rfl,
   (C2_record_response_appends
      { initState with jobs := [("j1", sampleJob)] } "j1"
      (Json.str "ack") sampleJob rfl "abcd1234-e5f6-7890" "t0"
      Json.null Json.null).1⟩

/-- C3: a response for a job id that is not a key of the registry is
dropped: the handler path neither raises (it is a total function here;
the source's membership test simply fails) nor changes any job record. -/
theorem C3_unknown_job_noop (st : DashState) (jid : String) (r : Json)
    (h : dictGet st.jobs jid = none) :
    recordResponse st jid r = (st, []) := by
  unfold recordResponse
  rw [h]

/-- Witness for C3 at a concrete input. -/
theorem C3_witness :
    dictGet ({ initState with jobs := [("j1", sampleJob)] }
        : DashState).jobs "nonexistent-job" = none ∧
    recordResponse { initState with jobs := [("j1", sampleJob)] }
        "nonexistent-job" (Json.str "resp") =
      ({ initState with jobs := [("j1", sampleJob)] }, []) :=
  ⟨rfl,
   C3_unknown_job_noop { initState with jobs := [("j1", sampleJob)] }
     "nonexistent-job" (Json.str "resp") rfl⟩

/-- C4 as stated is false on the code: `emergencies` is a plain Python
list appended on every broadcast (app.py:82) and nothing ever evicts, so
no capacity bounds the retained history; this proves the negation of the
bounded-buffer claim. -/
theorem C4_counterexample :
    ¬ ∃ C : Nat, ∀ evs : List Json,
      ((runMsgs initState (broadcasts evs)).emergencies).length ≤ C := by
  rintro ⟨C, hC⟩
  have h := hC (List.replicate (C + 1) Json.null)
  rw [runMsgs_broadcasts] at h
  simp [initState] at h

/-- C4 amended: the emergency history is an unbounded append-only list
holding every broadcast event in arrival order; only the read-side view
(app.py:151) truncates, returning the last ten events most-recent-last. -/
theorem C4_unbounded_history (evs : List Json) :
    (runMsgs initState (broadcasts evs)).emergencies = evs ∧
    getEmergencies (runMsgs initState (broadcasts evs)) =
      evs.drop (evs.length - 10) := by
  rw [runMsgs_broadcasts]
  refine ⟨by simp [initState], ?_⟩
  simp [getEmergencies, initState]

/-- C5: an inbound message whose topic is malformed (not classifiable, so
matching no subscribed filter) or whose payload is not valid JSON is
dropped without touching any store and without an exception escaping (the
handler is total); moreover the raw handler itself drops the claim's
example topic with the missing segment, because the IndexError raised by
the segment access is caught before any store is written. -/
theorem C5_malformed_dropped (st : DashState) (t : String)
    (p : Option Json) (h : parseTopic t = none ∨ p = none) :
    dashboardDeliver st t p = (st, []) ∧
    on_mqtt_message st "v2x/vehicles/status" p = (st, []) := by
  constructor
  · unfold dashboardDeliver
    by_cases hs : subscribedDash t = true
    · rcases h with h | h
      · have hp := subscribed_parse_isSome t hs
        rw [h] at hp
        simp at hp
      · subst h
        rw [if_pos hs]
        rfl
    · rw [if_neg hs]
  · cases p with
    | none => rfl
    | some m => rfl

/-- Witness for C5 at a concrete input. -/
theorem C5_witness :
    (parseTopic "v2x/vehicles/status" = none ∨
      (some Json.null : Option Json) = none) ∧
    dashboardDeliver initState "v2x/vehicles/status" (some Json.null) =
      (initState, []) ∧
    on_mqtt_message initState "v2x/vehicles/status" (some Json.null) =
      (initState, []) :=
  ⟨Or.inl (by decide),
   (C5_malformed_dropped initState "v2x/vehicles/status" (some Json.null)
      (Or.inl (by decide))).1,
   (C5_malformed_dropped initState "v2x/vehicles/status" (some Json.null)
      (Or.inl (by decide))).2⟩

/-- C6 as stated is false on the code: `create_job` performs no argument
validation (app.py:109-128, app.py:158-167), so a call with an empty
target list still registers a pending job and still publishes one
assignment message instead of failing. -/
theorem C6_counterexample :
    (listJobs (create_job initState "abcd1234-e5f6-7890" "t0"
        "diagnostic" [] none).1).map Job.job_id = ["abcd1234"] ∧
    (create_job initState "abcd1234-e5f6-7890" "t0" "diagnostic" []
        none).2.1.length = 1 :=
  ⟨rfl, rfl⟩

/-- C6 amended: a CreateJob call with an empty target set does not fail
and is not rejected: the job record is stored (pending, empty target
list) under the returned id and exactly one assignment message is
published. -/
theorem C6_empty_targets_accepted (st : DashState)
    (uuid4 now ty : String) (params : Option (List (String × Json))) :
    dictGet (create_job st uuid4 now ty [] params).1.jobs
        (create_job st uuid4 now ty [] params).2.2 =
      some { job_id := pyTake uuid4 8, type := ty, timestamp := now,
             target_vehicles := [], parameters := params.getD [],
             status := "pending", responses := none } ∧
    (create_job st uuid4 now ty [] params).2.1.length = 1 := by
  constructor
  · rw [show (create_job st uuid4 now ty [] params).1.jobs =
        upsert st.jobs (pyTake uuid4 8)
          { job_id := pyTake uuid4 8, type := ty, timestamp := now,
            target_vehicles := [], parameters := params.getD [],
            status := "pending", responses := none } from rfl,
      show (create_job st uuid4 now ty [] params).2.2 = pyTake uuid4 8
        from rfl]
    exact dictGet_upsert_self st.jobs (pyTake uuid4 8)
      { job_id := pyTake uuid4 8, type := ty, timestamp := now,
        target_vehicles := [], parameters := params.getD [],
        status := "pending", responses := none }
  · rfl

/-- C7 as stated is false on the code: the id is `str(uuid.uuid4())[:8]`
with no check against existing jobs (app.py:111-112, 123), so a draw
whose first eight characters equal an existing job id returns a colliding
id and silently replaces the earlier record. -/
theorem C7_counterexample :
    (create_job { initState with jobs := [("abcd1234", sampleJob)] }
        "abcd1234-9f00-4e11-a111-222233334444" "t1" "navigation"
        ["V003"] none).2.2 = "abcd1234" ∧
    dictGet ({ initState with jobs := [("abcd1234", sampleJob)] }
        : DashState).jobs "abcd1234" = some sampleJob ∧
    (dictGet (create_job { initState with
        jobs := [("abcd1234", sampleJob)] }
        "abcd1234-9f00-4e11-a111-222233334444" "t1" "navigation"
        ["V003"] none).1.jobs "abcd1234").map Job.type =
      some "navigation" ∧
    sampleJob.type ≠ "navigation" :=
  ⟨rfl, rfl, rfl, by decide⟩

/-- C7 amended: job creation derives the id by truncating the freshly
drawn UUID4 string to its first eight characters, without consulting the
registry; the record is stored under that id unconditionally, replacing
any existing job with the same id. -/
theorem C7_id_truncated_uuid (st : DashState) (uuid4 now ty : String)
    (targets : List String) (params : Option (List (String × Json))) :
    (create_job st uuid4 now ty targets params).2.2 = pyTake uuid4 8 ∧
    dictGet (create_job st uuid4 now ty targets params).1.jobs
        (pyTake uuid4 8) =
      some { job_id := pyTake uuid4 8, type := ty, timestamp := now,
             target_vehicles := targets, parameters := params.getD [],
             status := "pending", responses := none } := by
  constructor
  · rfl
  · rw [show (create_job st uuid4 now ty targets params).1.jobs =
        upsert st.jobs (pyTake uuid4 8)
          { job_id := pyTake uuid4 8, type := ty, timestamp := now,
            target_vehicles := targets, parameters := params.getD [],
            status := "pending", responses := none } from rfl]
    exact dictGet_upsert_self st.jobs (pyTake uuid4 8)
      { job_id := pyTake uuid4 8, type := ty, timestamp := now,
        target_vehicles := targets, parameters := params.getD [],
        status := "pending", responses := none }

/-- C8 as stated is false on the code: the codec has no escaping, so an
id containing the slash separator changes the segment count and the
formatted topic no longer parses; shown at the explicit id a/b. -/
theorem C8_counterexample :
    parseTopic (formatTopic (TopicAddr.vehicleStatus "a/b")) = none ∧
    (none : Option TopicAddr) ≠ some (TopicAddr.vehicleStatus "a/b") :=
  ⟨by decide, by decide⟩

/-- C8 amended: for every recognized kind and every id not containing the
slash separator, formatting the topic and parsing it back recovers the
kind and the id. -/
theorem C8_round_trip (a : TopicAddr) (h : '/' ∉ (addrId a).data) :
    parseTopic (formatTopic a) = some a := by
  cases a with
  | vehicleStatus id =>
      unfold parseTopic formatTopic
      rw [pySplit_vehicleStatus id h]
      rfl
  | vehicleEmergency id =>
      unfold parseTopic formatTopic
      rw [pySplit_vehicleEmergency id h]
      rfl
  | infrastructureUpdate id =>
      unfold parseTopic formatTopic
      rw [pySplit_infrastructure id h]
      rfl
  | emergencyBroadcast => rfl
  | jobAssignment id =>
      unfold parseTopic formatTopic
      rw [pySplit_jobAssign id h]
      rfl
  | jobResponse id =>
      unfold parseTopic formatTopic
      rw [pySplit_jobResponse id h]
      rfl

/-- Witness for the amended C8 at a concrete input. -/
theorem C8_witness :
    ('/' ∉ (addrId (TopicAddr.vehicleStatus "V001")).data) ∧
    parseTopic (formatTopic (TopicAddr.vehicleStatus "V001")) =
      some (TopicAddr.vehicleStatus "V001") :=
  ⟨by decide,
   C8_round_trip (TopicAddr.vehicleStatus "V001") (by decide)⟩

/-- C9: an infrastructure update is stored under the id taken from the
topic's third segment; the payload, including any infrastructure_id field
inside it, plays no role in the keying — the snapshot lands under the
topic id and no other key of the store changes. -/
theorem C9_infra_keyed_by_topic (st : DashState) (id : String) (m : Json)
    (h : '/' ∉ id.data) :
    on_mqtt_message st ("v2x/infrastructure/" ++ id) (some m) =
      ({ st with infrastructure := upsert st.infrastructure id m },
       [("infrastructure_update", m)]) ∧
    dictGet (upsert st.infrastructure id m) id = some m ∧
    (∀ k, k ≠ id → dictGet (upsert st.infrastructure id m) k =
      dictGet st.infrastructure k) := by
  refine ⟨infrastructure_step st id m h, dictGet_upsert_self _ _ _, ?_⟩
  intro k hk
  exact dictGet_upsert_ne st.infrastructure k id m (Ne.symm hk)

/-- Witness for C9 at a concrete input: the payload carries an
infrastructure_id different from the topic id and is nevertheless stored
under the topic id, while the payload's id is untouched as a key. -/
theorem C9_witness :
    ('/' ∉ "TL001".data) ∧
    on_mqtt_message initState ("v2x/infrastructure/" ++ "TL001")
        (some (Json.obj [("infrastructure_id", Json.str "TL999")])) =
      ({ initState with infrastructure := upsert initState.infrastructure "TL001" (Json.obj [("infrastructure_id", Json.str "TL999")]) },
       [("infrastructure_update",
         Json.obj [("infrastructure_id", Json.str "TL999")])]) ∧
    dictGet (upsert initState.infrastructure "TL001"
        (Json.obj [("infrastructure_id", Json.str "TL999")])) "TL001" =
      some (Json.obj [("infrastructure_id", Json.str "TL999")]) ∧
    dictGet (upsert initState.infrastructure "TL001"
        (Json.obj [("infrastructure_id", Json.str "TL999")])) "TL999" =
      dictGet initState.infrastructure "TL999" :=
  ⟨by decide,
   (C9_infra_keyed_by_topic initState "TL001"
      (Json.obj [("infrastructure_id", Json.str "TL999")])
      (by decide)).1,
   (C9_infra_keyed_by_topic initState "TL001"
      (Json.obj [("infrastructure_id", Json.str "TL999")])
      (by decide)).2.1,
   (C9_infra_keyed_by_topic initState "TL001"
      (Json.obj [("infrastructure_id", Json.str "TL999")])
      (by decide)).2.2 "TL999" (by decide)⟩

/-- C10: a single-vehicle emergency message changes no store at all —
the whole state is returned unchanged, so in particular the emergency
history the Recent view replays is untouched — and the message is only
wrapped and forwarded to the socket observers (app.py:66-72). -/
theorem C10_vehicle_emergency_frame (st : DashState) (id : String)
    (m : Json) (h : '/' ∉ id.data) :
    on_mqtt_message st ("v2x/vehicles/" ++ id ++ "/emergency") (some m) =
      (st, [("vehicle_emergency",
        Json.obj [("vehicle_id", Json.str id), ("message", m)])]) ∧
    getEmergencies (on_mqtt_message st
        ("v2x/vehicles/" ++ id ++ "/emergency") (some m)).1 =
      getEmergencies st := by
  refine ⟨vehicleEmergency_step st id m h, ?_⟩
  rw [vehicleEmergency_step st id m h]

/-- Witness for C10 at a concrete input with every store nonempty. -/
theorem C10_witness :
    ('/' ∉ "V001".data) ∧
    on_mqtt_message
        { vehicles := [("V001", Json.null)],
          infrastructure := [("TL001", Json.null)],
          emergencies := [Json.str "e1"],
          jobs := [("j1", sampleJob)] }
        ("v2x/vehicles/" ++ "V001" ++ "/emergency")
        (some (Json.str "brake-failure")) =
      ({ vehicles := [("V001", Json.null)],
         infrastructure := [("TL001", Json.null)],
         emergencies := [Json.str "e1"],
         jobs := [("j1", sampleJob)] },
       [("vehicle_emergency",
         Json.obj [("vehicle_id", Json.str "V001"),
                   ("message", Json.str "brake-failure")])]) :=
  ⟨by decide,
   (C10_vehicle_emergency_frame
      { vehicles := [("V001", Json.null)],
        infrastructure := [("TL001", Json.null)],
        emergencies := [Json.str "e1"],
        jobs := [("j1", sampleJob)] }
      "V001" (Json.str "brake-failure") (by decide)).1⟩

end Car2X
